import Mathlib

/-!
Verification development for the weekly-digest serverless endpoint
(`api/weekly.js`). The single source file exports a request handler that
authenticates a GET request, calls the OpenAI Responses API (with a single
fallback model on model/permission failures), parses the returned text as
JSON, sanitizes the `articles` array and responds with at most 50
`(url, title)` pairs.

The JavaScript runtime values are modelled by the inductive `JVal`
(JSON values plus `undefined`); property access, truthiness, `||`
chains and optional chaining are modelled after ECMAScript semantics for
the accesses this endpoint performs. String helpers are implemented
structurally over character lists so that all definitions evaluate inside
the kernel. JSON numbers are modelled as integers: no claim depends on
non-integral numerics. `JSON.parse` and `fetch` are external to the
repository and enter the model as explicit oracle parameters.
-/

namespace Weekly

/-- JavaScript runtime values as far as this endpoint observes them:
the six JSON value forms plus `undefined` (`JSON.parse` itself never
produces `undefined`; it arises from missing-property accesses). -/
inductive JVal where
  | undefined : JVal
  | null : JVal
  | bool : Bool → JVal
  | num : Int → JVal
  | str : String → JVal
  | arr : List JVal → JVal
  | obj : List (String × JVal) → JVal

/-- ECMAScript ToBoolean on the modelled values: `undefined`, `null`,
`false`, `0` and `""` are falsy, everything else (including every object
and array) is truthy. -/
def isTruthy : JVal → Bool
  | .undefined => false
  | .null => false
  | .bool b => b
  | .num n => n != 0
  | .str s => s != ""
  | .arr _ => true
  | .obj _ => true

/-- Last-wins association lookup: `JSON.parse` keeps the final occurrence
of a duplicated object key, which a left fold reproduces. -/
def lookupLast (fs : List (String × JVal)) (k : String) : Option JVal :=
  fs.foldl (fun acc p => if p.1 = k then some p.2 else acc) none

/-- Numeric value of a list of decimal digits (most significant first). -/
def digitsVal (l : List Char) : Nat :=
  l.foldl (fun n c => 10 * n + (c.toNat - 48)) 0

/-- Canonical array-index keys: a non-empty all-digit string without a
leading zero (except `"0"` itself) denotes an index, as in ECMAScript
integer-indexed property access. -/
def numericKey (k : String) : Option Nat :=
  match k.data with
  | [] => none
  | c :: t =>
    if (c :: t).all (fun d => d.isDigit) && (decide (c ≠ '0') || t.isEmpty) then
      some (digitsVal (c :: t))
    else none

/-- JavaScript property access `v[k]` on a non-nullish base: object keys
are looked up (last occurrence wins), arrays and strings expose `length`
and canonical integer indices, and every other access is `undefined`.
Access on `null`/`undefined` throws in JavaScript; that case is modelled
at the use sites (`respond`), never through this function. -/
def getProp : JVal → String → JVal
  | .obj fs, k => (lookupLast fs k).getD .undefined
  | .arr l, k =>
    if k = "length" then .num l.length
    else match numericKey k with
      | some i => (l.get? i).getD .undefined
      | none => .undefined
  | .str s, k =>
    if k = "length" then .num s.length
    else match numericKey k with
      | some i =>
        match s.data.get? i with
        | some c => .str (String.mk [c])
        | none => .undefined
      | none => .undefined
  | _, _ => .undefined

/-- One step of an optional chain `v?.…`: a nullish base short-circuits
to `undefined`, otherwise the accessor runs. -/
def optChain (v : JVal) (f : JVal → JVal) : JVal :=
  match v with
  | .undefined => .undefined
  | .null => .undefined
  | x => f x

/-- A sanitized article as built by the handler's `.map`: the `url`
value copied verbatim and the `title` value coerced to a string. -/
structure Article where
  url : JVal
  title : JVal

/-- Body of an HTTP JSON response of the handler: either the success
payload `{ articles: [...] }` or `{ error, detail? }`. -/
inductive Body where
  | articles : List Article → Body
  | error : String → Option String → Body

/-- An HTTP response: status code, optional `Allow` header, JSON body. -/
structure Response where
  status : Nat
  allow : Option String
  body : Body

/-- Filter predicate of `handler` line 55:
`a && typeof a.url === "string" && a.url.startsWith("http")`.
`jsStartsWith` is used for `String.prototype.startsWith`. -/
def jsStartsWith (s pre : String) : Bool :=
  pre.data.isPrefixOf s.data

def artPred (a : JVal) : Bool :=
  isTruthy a &&
    (match getProp a "url" with
     | .str s => jsStartsWith s "http"
     | _ => false)

/-- Mapping step of `handler` lines 56–59: keep `a.url` as is and coerce
a non-string `a.title` to the empty string. -/
def toArticle (a : JVal) : Article :=
  ⟨getProp a "url",
   match getProp a "title" with
   | .str t => .str t
   | _ => .str ""⟩

/-- The `filter`/`map` stage of the sanitization pipeline (before the
`slice(0, 50)` cap). -/
def cleanList (l : List JVal) : List Article :=
  (l.filter artPred).map toArticle

/-- Full sanitization of the `articles` array: filter, map, cap at 50
(`handler` lines 54–60). -/
def sanitize (l : List JVal) : List Article :=
  (cleanList l).take 50

/-- The `articles` array selected on line 53:
`Array.isArray(parsed.articles) ? parsed.articles : []`. -/
def articlesOf (parsed : JVal) : List JVal :=
  match getProp parsed "articles" with
  | .arr l => l
  | _ => []

/-- Stand-in for the engine-specific `String(e)` rendering of the
`TypeError` raised by `parsed.articles` when `parsed` is nullish. -/
def serverErrorDetail : String :=
  "TypeError: Cannot read properties of null (reading 'articles')"

/-- Lines 52–65 of `handler`, applied to the JSON value the upstream text
parsed to. Accessing `.articles` on `null` (or `undefined`) throws, which
the surrounding `try` turns into the 500 "Server error" response; every
other value is sanitized and answered with status 200. -/
def respond (parsed : JVal) : Response :=
  match parsed with
  | .null => ⟨500, none, .error "Server error" (some serverErrorDetail)⟩
  | .undefined => ⟨500, none, .error "Server error" (some serverErrorDetail)⟩
  | p => ⟨200, none, .articles (sanitize (articlesOf p))⟩

/-- Lines 45–65 of `handler`: the outcome of `JSON.parse(result.text)`
(`none` models a parse exception) is replaced by `{ articles: [] }` on
failure and then processed by `respond`. -/
def handlerParsed : Option JVal → Response
  | none => respond (.obj [("articles", .arr [])])
  | some p => respond p

/-! ### Authorization (handler lines 9–16) -/

/-- Splitting a character list at every separator that satisfies `p`:
empty segments are kept, and splitting the empty list yields `[""]` —
exactly `String.prototype.split` with a one-character separator. -/
def splitByAux (p : Char → Bool) (acc : List Char) : List Char → List String
  | [] => [String.mk acc.reverse]
  | c :: t =>
    if p c then String.mk acc.reverse :: splitByAux p [] t
    else splitByAux p (c :: acc) t

/-- JavaScript `String.prototype.split` with a single-character
separator. -/
def jsSplit (s : String) (sep : Char) : List String :=
  splitByAux (fun c => c = sep) [] s.data

/-- `req.headers.authorization?.split(" ")[1]`: the element at index 1
of the single-space split, `none` when the header is absent or the split
has no second element. -/
def headerWord (authHeader : Option String) : Option String :=
  match authHeader with
  | none => none
  | some h => (jsSplit h ' ').get? 1

/-- `req.query.token || ""`: the query parameter or, when absent, the
empty string (an empty query parameter is itself falsy and yields the
same empty string). -/
def queryFallback (queryToken : Option String) : String :=
  match queryToken with
  | some q => q
  | none => ""

/-- The token the handler compares, lines 9–12:
`req.headers.authorization?.split(" ")[1] || req.query.token || ""`.
A `none` header or query parameter models an absent value (`undefined`);
the `||` chain skips falsy (empty or undefined) values. -/
def bearerOf (authHeader : Option String) (queryToken : Option String) : String :=
  match headerWord authHeader with
  | some w => if w ≠ "" then w else queryFallback queryToken
  | none => queryFallback queryToken

/-- Lines 13–15: `REQUIRED && bearer !== REQUIRED`. An unset or empty
`DEEP_TOKEN` is falsy, so the check is skipped. -/
def authRejects (required : Option String) (bearer : String) : Bool :=
  match required with
  | none => false
  | some t => (t != "") && (bearer != t)

/-! ### Upstream call (`callOpenAI`, lines 69–117) -/

/-- Request body sent to the Responses API: model identifier, the prompt
as `input`, and the requested `response_format` type. -/
structure OAIReq where
  model : String
  input : String
  response_format : String

/-- Outcome of one `fetch` of the Responses endpoint, as the code
observes it: `ok` mirrors `resp.ok`; `text` is `await resp.text()`
(consulted on failure); `data` is `await resp.json()` (consulted on
success, assumed to parse — a `resp.json()` exception would escape to the
handler's catch-all and is outside the claims). -/
structure FetchResp where
  ok : Bool
  text : String
  data : JVal

/-- Result of `callOpenAI`: the extracted text value on success, the
error detail string on failure. -/
inductive CallResult where
  | ok : JVal → CallResult
  | err : String → CallResult

def primaryModel : String := "o3-deep-research-2025-06-26"

def fallbackModel : String := "gpt-4.1-mini"

def primaryReq (prompt : String) : OAIReq :=
  ⟨primaryModel, prompt, "json_object"⟩

def fallbackReq (prompt : String) : OAIReq :=
  ⟨fallbackModel, prompt, "json_object"⟩

/-- ASCII lower-casing of one character, as both sides of the
case-insensitive regular-expression test need (its alternatives are pure
ASCII; non-ASCII case folding is irrelevant to them). -/
def lowerAscii (c : Char) : Char :=
  if 65 ≤ c.toNat && c.toNat ≤ 90 then Char.ofNat (c.toNat + 32) else c

def toLowerAscii (s : String) : String :=
  String.mk (s.data.map lowerAscii)

/-- Substring occurrence on character lists. -/
def hasSub (pat : List Char) : List Char → Bool
  | [] => pat.isPrefixOf ([] : List Char)
  | c :: t => pat.isPrefixOf (c :: t) || hasSub pat t

def containsCI (s pat : String) : Bool :=
  hasSub (toLowerAscii pat).data (toLowerAscii s).data

/-- Line 94: `/model|not found|permission/i.test(body)` — a
case-insensitive substring test for any of the three alternatives. -/
def matchesModelPattern (body : String) : Bool :=
  containsCI body "model" || containsCI body "not found" || containsCI body "permission"

/-- The optional chain `data?.output_text`. -/
def convField (data : JVal) : JVal :=
  optChain data (fun v => getProp v "output_text")

/-- The optional chain `data?.output?.[0]?.content?.[0]?.text`. -/
def nestedField (data : JVal) : JVal :=
  optChain
    (optChain
      (optChain
        (optChain (optChain data (fun v => getProp v "output"))
          (fun v => getProp v "0"))
        (fun v => getProp v "content"))
      (fun v => getProp v "0"))
    (fun v => getProp v "text")

/-- Lines 111–114: `data?.output_text ||
data?.output?.[0]?.content?.[0]?.text || "{}"` — the `||` chain keeps
the first truthy value. -/
def extractText (data : JVal) : JVal :=
  if isTruthy (convField data) then convField data
  else if isTruthy (nestedField data) then nestedField data
  else .str "\x7b\x7d"

def missingKeyDetail : String :=
  "OPENAI_API_KEY missing in Vercel environment"

/-- Lines 69–117. `apiKey` models `process.env.OPENAI_API_KEY` (`none` =
unset; the code also treats the empty string as missing via `!key`).
`fetch` is the outbound-HTTP oracle. The returned list records every
request issued, in order, so that call counts are provable. -/
def callOpenAI (apiKey : Option String) (fetch : OAIReq → FetchResp)
    (prompt : String) : List OAIReq × CallResult :=
  match apiKey with
  | none => ([], .err missingKeyDetail)
  | some k =>
    if k = "" then ([], .err missingKeyDetail)
    else
      let r1 := fetch (primaryReq prompt)
      if r1.ok then ([primaryReq prompt], .ok (extractText r1.data))
      else if matchesModelPattern r1.text then
        let r2 := fetch (fallbackReq prompt)
        if r2.ok then ([primaryReq prompt, fallbackReq prompt], .ok (extractText r2.data))
        else ([primaryReq prompt, fallbackReq prompt], .err r2.text)
      else ([primaryReq prompt], .err r1.text)

/-! ### The full handler (lines 2–66) -/

/-- The fixed research prompt (lines 19–36), after `.trim()`. -/
def PROMPT : String :=
  "You are producing a weekly research digest for the EU residential solar PV & energy storage market.\nTIME WINDOW: last 7 calendar days only.\nSCOPE: residential PV + hybrid inverters + residential batteries (exclude C&I and utility).\nGEOGRAPHY: Germany, Austria, Switzerland, Belgium, Netherlands, Italy, United Kingdom, Romania, Czech Republic, Spain, France.\nSOURCES PRIORITY: national solar associations, grid operators/DSOs/TSOs, energy regulators, government portals, major distributors and installers, reputable trade media (pv-magazine, SolarPower Europe, etc.). Avoid low-quality blogs and generic SEO farms.\nCOMPETITORS: Huawei, SMA, Fronius, GoodWe, Growatt, Deye, SigEnergy, Dyness. Exclude Sungrow.\nINCLUDE: product launches; certifications/compliance (e.g., G99, CEI 0-21, C15-712-3, NC RfG); firmware/feature updates; partnerships; pricing/positioning; policy/regulatory changes; incentives/subsidies relevant to residential PV/ESS; notable installer/distributor programs.\nDE-DUPLICATE: canonicalize URLs (strip tracking params; prefer original source over rewrites).\nOUTPUT: STRICT JSON only, no prose. Exactly:\n\x7b\n  \"articles\": [\n    \x7b\"url\":\"https://...\", \"title\":\"...\"\x7d,\n    ...\n  ]\n\x7d\nReturn 10–40 high-quality items max. If nothing qualifies, return \x7b\"articles\":[]\x7d."

/-- Inbound request as the handler reads it: the HTTP method, the
`Authorization` header (`none` = absent) and the `token` query
parameter (`none` = absent). -/
structure Request where
  method : String
  authHeader : Option String
  queryToken : Option String

/-- Process environment and external collaborators of one invocation:
`DEEP_TOKEN`, `OPENAI_API_KEY`, the `fetch` oracle and the
`JSON.parse` oracle (`none` models a parse exception; its argument is
the value the extraction step produced). -/
structure Env where
  deepToken : Option String
  apiKey : Option String
  fetch : OAIReq → FetchResp
  jsonParse : JVal → Option JVal

/-- Lines 38–65 after the authorization gate: dispatch the upstream call
and either surface its failure as 502 or parse and sanitize its text. -/
def afterAuth (env : Env) : Response :=
  match (callOpenAI env.apiKey env.fetch PROMPT).2 with
  | .err d => ⟨502, none, .error "OpenAI call failed" (some d)⟩
  | .ok text => handlerParsed (env.jsonParse text)

/-- The exported handler (lines 2–66): method gate, authorization gate,
then the upstream pipeline. -/
def handler (env : Env) (req : Request) : Response :=
  if req.method ≠ "GET" then
    ⟨405, some "GET", .error "Method Not Allowed" none⟩
  else if authRejects env.deepToken (bearerOf req.authHeader req.queryToken) then
    ⟨401, none, .error "Unauthorized" none⟩
  else afterAuth env

/-- The articles carried by a response (empty for error bodies). -/
def responseArticles (r : Response) : List Article :=
  match r.body with
  | .articles l => l
  | .error _ _ => []

/-! ### Definitions following the specification's words, for comparison
with the source-derived definitions above. -/

/-- Spec wording (§4): an entry survives when it is a non-null object
whose `url` field is a string starting with `"http"`. -/
def isNonNullObject : JVal → Bool
  | .obj _ => true
  | _ => false

def specKeeps (a : JVal) : Bool :=
  isNonNullObject a &&
    (match getProp a "url" with
     | .str s => jsStartsWith s "http"
     | _ => false)

/-- Spec wording (§4): a survivor is mapped to `{ url, title }` with a
non-string or absent `title` coerced to the empty string. -/
def specMapped (a : JVal) : Article :=
  ⟨(match getProp a "url" with
    | .str s => JVal.str s
    | _ => JVal.str ""),
   (match getProp a "title" with
    | .str t => JVal.str t
    | _ => JVal.str "")⟩

/-- Scheme of a URL string: the prefix before the first colon
(spec §3 requires scheme `"http"` or `"https"`). -/
def schemeOf (s : String) : String :=
  String.mk (s.data.takeWhile (fun c => c ≠ ':'))

/-- Second whitespace-separated word of a string, reading the claim's
"the second whitespace-separated word of the Authorization header"
literally: words are the maximal non-empty runs between whitespace. -/
def specSecondWord (s : String) : Option String :=
  ((splitByAux (fun c => c.isWhitespace) [] s.data).filter (fun w => w ≠ "")).get? 1

/-- Whether a value is an array (`Array.isArray`). -/
def isArr : JVal → Bool
  | .arr _ => true
  | _ => false

/-- Field presence on an object (the claim's "when present" for C8). -/
def hasProp (v : JVal) (k : String) : Bool :=
  match v with
  | .obj fs => fs.any (fun p => p.1 = k)
  | _ => false

/-- Extraction as claim C8 states it: the top-level `output_text` when
present; otherwise the `text` field of the first content entry of the
last output item; otherwise the literal string of an empty JSON
object. -/
def specExtractClaim (data : JVal) : JVal :=
  if hasProp data "output_text" then getProp data "output_text"
  else
    match getProp data "output" with
    | .arr items =>
      match items.getLast? with
      | some item =>
        match getProp item "content" with
        | .arr cs =>
          match cs.head? with
          | some c =>
            if hasProp c "text" then getProp c "text" else .str "\x7b\x7d"
          | none => .str "\x7b\x7d"
        | _ => .str "\x7b\x7d"
      | none => .str "\x7b\x7d"
    | _ => .str "\x7b\x7d"

/-! ### Concrete inputs used by the example-driven claims,
counterexamples and witnesses. -/

/-- The parsed form of the spec's worked example
`{"articles":[{"url":"https://a.example/1","title":"T1"},{"url":"not-a-url","title":"T2"},{"url":"https://a.example/3"}]}`. -/
def exampleParsed : JVal :=
  .obj [("articles", .arr
    [.obj [("url", .str "https://a.example/1"), ("title", .str "T1")],
     .obj [("url", .str "not-a-url"), ("title", .str "T2")],
     .obj [("url", .str "https://a.example/3")]])]

/-- Sixty valid article entries (C2's worked example). -/
def sixtyEntries : List JVal :=
  List.replicate 60 (.obj [("url", .str "https://example.com/a"), ("title", .str "t")])

/-- An upstream output whose only article passes the `startsWith("http")`
filter while its URL scheme is `httpx` (C3's counterexample). -/
def schemeParsed : JVal :=
  .obj [("articles", .arr [.obj [("url", .str "httpx://evil.example/"), ("title", .str "t")]])]

/-- Upstream response data with two output items and no `output_text`
(C8's counterexample): the code reads the first item, the claim the
last. -/
def twoOutputData : JVal :=
  .obj [("output", .arr
    [.obj [("content", .arr [.obj [("text", .str "A")]])],
     .obj [("content", .arr [.obj [("text", .str "B")]])]])]

/-- A fetch oracle whose primary call fails with a model-pattern body and
whose fallback call fails with a distinct body. -/
def bothFailFetch : OAIReq → FetchResp :=
  fun r =>
    if r.model = primaryModel then ⟨false, "The model not found", .null⟩
    else ⟨false, "fallback capacity exhausted", .null⟩

/-- A fetch oracle that always fails with a body outside the
model/permission pattern. -/
def plainFailFetch : OAIReq → FetchResp :=
  fun _ => ⟨false, "tcp handshake timeout", .null⟩

/-- A fetch oracle that succeeds with data carrying no usable text. -/
def okNullFetch : OAIReq → FetchResp :=
  fun _ => ⟨true, "", .null⟩

/-- A parse oracle that always fails (models receiving non-JSON text). -/
def failParse : JVal → Option JVal :=
  fun _ => none

/-- Environment for the C10 counterexample: `DEEP_TOKEN` set to
`s3cret`, upstream irrelevant. -/
def envC10 : Env := ⟨some "s3cret", some "k", plainFailFetch, failParse⟩

/-- Request for the C10 counterexample: an `Authorization` header whose
second whitespace-separated word equals the required token but sits
behind two consecutive spaces, plus a mismatching query token. -/
def reqC10 : Request := ⟨"GET", some "Bearer  s3cret", some "wrong"⟩

/-! ### Helper lemmas -/

theorem getProp_str_url (s : String) : getProp (.str s) "url" = .undefined := rfl

theorem getProp_arr_url (l : List JVal) : getProp (.arr l) "url" = .undefined := rfl

theorem getProp_str_articles (s : String) : getProp (.str s) "articles" = .undefined := rfl

theorem getProp_arr_articles (l : List JVal) : getProp (.arr l) "articles" = .undefined := rfl

/-- The source's filter predicate agrees with the specification's
"non-null object with a string `url` field starting with http": only
objects can carry a string `url`, and objects are always truthy and
non-null. -/
theorem artPred_eq_specKeeps (a : JVal) : artPred a = specKeeps a := by
  cases a with
  | undefined => rfl
  | null => rfl
  | bool b => simp [artPred, specKeeps, isTruthy, isNonNullObject, getProp]
  | num n => simp [artPred, specKeeps, isTruthy, isNonNullObject, getProp]
  | str s => simp [artPred, specKeeps, isTruthy, isNonNullObject, getProp_str_url]
  | arr l => simp [artPred, specKeeps, isTruthy, isNonNullObject, getProp_arr_url]
  | obj fs => rfl

/-- On survivors the source's map step agrees with the specification's
`{ url, title }` construction. -/
theorem toArticle_eq_specMapped (a : JVal) (h : specKeeps a = true) :
    toArticle a = specMapped a := by
  have hurl := ((Bool.and_eq_true _ _).mp h).2
  revert hurl
  cases hg : getProp a "url" with
  | str s =>
    intro _
    unfold toArticle specMapped
    rw [hg]
  | undefined => intro hurl; exact absurd hurl (by simp)
  | null => intro hurl; exact absurd hurl (by simp)
  | bool b => intro hurl; exact absurd hurl (by simp)
  | num n => intro hurl; exact absurd hurl (by simp)
  | arr l => intro hurl; exact absurd hurl (by simp)
  | obj fs => intro hurl; exact absurd hurl (by simp)

theorem sanitize_of_all_valid (l : List JVal) (h : ∀ a ∈ l, artPred a = true) :
    sanitize l = (l.take 50).map toArticle := by
  unfold sanitize cleanList
  rw [List.filter_eq_self.mpr h, List.map_take]

/-! ### Claims -/

/-- C1: the sanitization keeps exactly the entries of the `articles`
array that are non-null objects whose `url` is a string starting with
"http", maps each survivor to `{ url, title }` with a non-string or
absent title coerced to the empty string, preserves their order, and on
the spec's worked example produces exactly the two surviving articles. -/
theorem c1_sanitization (l : List JVal) :
    cleanList l = (l.filter specKeeps).map specMapped
    ∧ respond exampleParsed = ⟨200, none, .articles
        [⟨.str "https://a.example/1", .str "T1"⟩,
         ⟨.str "https://a.example/3", .str ""⟩]⟩ := by
  constructor
  · unfold cleanList
    rw [List.filter_congr (fun a _ => artPred_eq_specKeeps a)]
    exact List.map_congr_left
      (fun a ha => toArticle_eq_specMapped a (List.mem_filter.mp ha).2)
  · rfl

/-- C2: when the `articles` field is an array of valid entries, the 200
response carries the first 50 of them, mapped, in the original upstream
order, hence at most 50 articles. -/
theorem c2_cap (p : JVal) (l : List JVal)
    (hp : getProp p "articles" = .arr l)
    (h : ∀ a ∈ l, artPred a = true) :
    respond p = ⟨200, none, .articles ((l.take 50).map toArticle)⟩
    ∧ ((l.take 50).map toArticle).length = min 50 l.length
    ∧ ((l.take 50).map toArticle).length ≤ 50 := by
  have hart : articlesOf p = l := by
    unfold articlesOf
    rw [hp]
  have hlen : ((l.take 50).map toArticle).length = min 50 l.length := by
    rw [List.length_map, List.length_take]
  refine ⟨?_, hlen, ?_⟩
  · cases p with
    | obj fs =>
      show (⟨200, none, .articles (sanitize (articlesOf (.obj fs)))⟩ : Response) = _
      rw [hart, sanitize_of_all_valid l h]
    | undefined => exact absurd hp (by simp [getProp])
    | null => exact absurd hp (by simp [getProp])
    | bool b => exact absurd hp (by simp [getProp])
    | num n => exact absurd hp (by simp [getProp])
    | str s => exact absurd hp (by rw [getProp_str_articles]; exact fun hc => JVal.noConfusion hc)
    | arr m => exact absurd hp (by rw [getProp_arr_articles]; exact fun hc => JVal.noConfusion hc)
  · rw [hlen]
    exact min_le_left 50 l.length

/-- C2 witness: sixty identical valid entries yield exactly the first
fifty, in order. -/
theorem c2_cap_witness :
    respond (.obj [("articles", .arr sixtyEntries)])
      = ⟨200, none, .articles ((sixtyEntries.take 50).map toArticle)⟩
    ∧ ((sixtyEntries.take 50).map toArticle).length = 50 := by
  have h : ∀ a ∈ sixtyEntries, artPred a = true := by
    intro a ha
    have ha2 : a ∈ List.replicate 60
        (JVal.obj [("url", JVal.str "https://example.com/a"), ("title", JVal.str "t")]) := ha
    rw [List.eq_of_mem_replicate ha2]
    rfl
  have hc := c2_cap (.obj [("articles", .arr sixtyEntries)]) sixtyEntries rfl h
  refine ⟨hc.1, ?_⟩
  rw [hc.2.1]
  rfl

/-- Membership in a sanitized list forces a string URL with the `http`
prefix. -/
theorem mem_sanitize (m : List JVal) (a : Article) (h : a ∈ sanitize m) :
    ∃ s : String, a.url = .str s ∧ jsStartsWith s "http" = true ∧ s ≠ "" := by
  unfold sanitize cleanList at h
  obtain ⟨b, hb, hba⟩ := List.mem_map.mp (List.take_subset 50 _ h)
  have hp := (List.mem_filter.mp hb).2
  have hurl := ((Bool.and_eq_true _ _).mp hp).2
  revert hurl
  cases hg : getProp b "url" with
  | str s =>
    intro hurl
    refine ⟨s, ?_, hurl, ?_⟩
    · rw [← hba]
      show getProp b "url" = JVal.str s
      exact hg
    · intro he
      rw [he] at hurl
      exact absurd hurl (by decide)
  | undefined => intro hurl; exact absurd hurl (by simp)
  | null => intro hurl; exact absurd hurl (by simp)
  | bool c => intro hurl; exact absurd hurl (by simp)
  | num n => intro hurl; exact absurd hurl (by simp)
  | arr l2 => intro hurl; exact absurd hurl (by simp)
  | obj fs => intro hurl; exact absurd hurl (by simp)

/-- C3 counterexample: the URL `httpx://evil.example/` survives the
filter and reaches the 200 response although its scheme is neither
`http` nor `https` — the code checks only the four-character prefix. -/
theorem c3_counterexample :
    respond schemeParsed
      = ⟨200, none, .articles [⟨.str "httpx://evil.example/", .str "t"⟩]⟩
    ∧ schemeOf "httpx://evil.example/" ≠ "http"
    ∧ schemeOf "httpx://evil.example/" ≠ "https" := by
  refine ⟨rfl, ?_, ?_⟩ <;> decide

/-- C3 as amended: every `url` of an article in a response is a
non-empty string beginning with `"http"` (the absolute-URL/scheme
guarantee of the original claim does not hold). -/
theorem c3_url_prefix_invariant (p : JVal) (a : Article)
    (h : a ∈ responseArticles (respond p)) :
    ∃ s : String, a.url = .str s ∧ jsStartsWith s "http" = true ∧ s ≠ "" := by
  cases p with
  | null => exact absurd h (List.not_mem_nil a)
  | undefined => exact absurd h (List.not_mem_nil a)
  | bool b => exact mem_sanitize _ a h
  | num n => exact mem_sanitize _ a h
  | str s => exact mem_sanitize _ a h
  | arr l => exact mem_sanitize _ a h
  | obj fs => exact mem_sanitize _ a h

/-- C3 witness: the amended invariant applied to the worked example's
first article. -/
theorem c3_url_prefix_invariant_witness :
    ∃ s : String,
      (Article.mk (.str "https://a.example/1") (.str "T1")).url = .str s
      ∧ jsStartsWith s "http" = true ∧ s ≠ "" :=
  c3_url_prefix_invariant exampleParsed
    ⟨.str "https://a.example/1", .str "T1"⟩ (List.Mem.head _)

/-- C4: if the upstream call succeeded but its text does not parse as
JSON, the handler answers 200 with an empty articles list instead of an
error. -/
theorem c4_parse_failure (env : Env) (req : Request) (text : JVal)
    (hm : req.method = "GET")
    (ha : authRejects env.deepToken (bearerOf req.authHeader req.queryToken) = false)
    (hok : (callOpenAI env.apiKey env.fetch PROMPT).2 = .ok text)
    (hp : env.jsonParse text = none) :
    handler env req = ⟨200, none, .articles []⟩ := by
  unfold handler
  rw [if_neg (by rw [hm]; exact fun hc => hc rfl)]
  rw [ha]
  show afterAuth env = _
  unfold afterAuth
  rw [hok]
  show handlerParsed (env.jsonParse text) = _
  rw [hp]
  rfl

/-- C4 witness: a fetch oracle succeeding with unusable data and a parse
oracle that always fails still produce the empty 200 response. -/
theorem c4_parse_failure_witness :
    handler ⟨none, some "k", okNullFetch, failParse⟩ ⟨"GET", none, none⟩
      = ⟨200, none, .articles []⟩ :=
  c4_parse_failure ⟨none, some "k", okNullFetch, failParse⟩ ⟨"GET", none, none⟩
    (.str "\x7b\x7d") rfl rfl rfl rfl

/-- C5 counterexample: upstream text `"null"` parses to JSON `null`, and
the handler then answers 500 "Server error" — the shape mismatch IS
surfaced as an error response, contradicting the claim. -/
theorem c5_counterexample :
    handlerParsed (some JVal.null)
      = ⟨500, none, .error "Server error" (some serverErrorDetail)⟩
    ∧ (handlerParsed (some JVal.null)).status ≠ 200 :=
  ⟨rfl, by decide⟩

/-- C5 as amended: for every parsed value other than `null` whose
`articles` field is not an array, the handler recovers with an empty
list and a 200 response (parsed `null` instead raises and yields 500). -/
theorem c5_shape_recovery (p : JVal)
    (h0 : p ≠ JVal.null) (h1 : p ≠ JVal.undefined)
    (h2 : isArr (getProp p "articles") = false) :
    handlerParsed (some p) = ⟨200, none, .articles []⟩ := by
  cases p with
  | null => exact absurd rfl h0
  | undefined => exact absurd rfl h1
  | bool b => rfl
  | num n => rfl
  | str s => rfl
  | arr l => rfl
  | obj fs =>
    show (⟨200, none, .articles (sanitize (articlesOf (.obj fs)))⟩ : Response) = _
    have harts : articlesOf (.obj fs) = [] := by
      unfold articlesOf
      revert h2
      cases hg : getProp (JVal.obj fs) "articles" with
      | arr l => intro h2; exact absurd h2 (by simp [isArr])
      | undefined => intro _; rfl
      | null => intro _; rfl
      | bool b => intro _; rfl
      | num n => intro _; rfl
      | str s => intro _; rfl
      | obj gs => intro _; rfl
    rw [harts]
    rfl

/-- C5 witness: a number at top level has no `articles` array and is
answered with the empty 200 response. -/
theorem c5_shape_recovery_witness :
    handlerParsed (some (JVal.num 5)) = ⟨200, none, .articles []⟩ :=
  c5_shape_recovery (JVal.num 5) (fun h => JVal.noConfusion h)
    (fun h => JVal.noConfusion h) rfl

/-- A GET request whose computed bearer differs from a non-empty
configured token is answered 401 (shared auth helper). -/
theorem handler_unauthorized (env : Env) (req : Request) (t : String)
    (hd : env.deepToken = some t) (ht : t ≠ "") (hm : req.method = "GET")
    (hne : bearerOf req.authHeader req.queryToken ≠ t) :
    handler env req = ⟨401, none, .error "Unauthorized" none⟩ := by
  unfold handler
  rw [if_neg (by rw [hm]; exact fun hc => hc rfl)]
  have hrej : authRejects env.deepToken (bearerOf req.authHeader req.queryToken) = true := by
    rw [hd]
    unfold authRejects
    rw [Bool.and_eq_true]
    exact ⟨bne_iff_ne.mpr ht, bne_iff_ne.mpr hne⟩
  rw [hrej]
  rfl

/-- A GET request whose computed bearer equals the configured token
passes the gate and the handler continues with the upstream pipeline
(shared auth helper). -/
theorem handler_authorized (env : Env) (req : Request) (t : String)
    (hd : env.deepToken = some t) (hm : req.method = "GET")
    (heq : bearerOf req.authHeader req.queryToken = t) :
    handler env req = afterAuth env := by
  unfold handler
  rw [if_neg (by rw [hm]; exact fun hc => hc rfl)]
  have hrej : authRejects env.deepToken (bearerOf req.authHeader req.queryToken) = false := by
    rw [hd, heq]
    unfold authRejects
    simp
  rw [hrej]
  rfl

/-- C6: a primary failure whose body matches the case-insensitive
model/not-found/permission pattern triggers exactly one additional call,
with the fallback model, the same prompt and the same requested output
format; when that fallback call fails too, the handler answers 502 with
the fallback call's error body as detail. -/
theorem c6_fallback (k prompt : String) (fetch : OAIReq → FetchResp)
    (hk : k ≠ "")
    (h1 : (fetch (primaryReq prompt)).ok = false)
    (hpat : matchesModelPattern (fetch (primaryReq prompt)).text = true)
    (h2 : (fetch (fallbackReq prompt)).ok = false) :
    callOpenAI (some k) fetch prompt
      = ([primaryReq prompt, fallbackReq prompt],
         .err (fetch (fallbackReq prompt)).text)
    ∧ ∀ (dt : Option String) (parse : JVal → Option JVal) (req : Request),
        req.method = "GET"
        → authRejects dt (bearerOf req.authHeader req.queryToken) = false
        → prompt = PROMPT
        → handler ⟨dt, some k, fetch, parse⟩ req
            = ⟨502, none,
               .error "OpenAI call failed" (some (fetch (fallbackReq prompt)).text)⟩ := by
  have hcall : callOpenAI (some k) fetch prompt
      = ([primaryReq prompt, fallbackReq prompt],
         .err (fetch (fallbackReq prompt)).text) := by
    simp [callOpenAI, h1, hpat, h2, hk]
  refine ⟨hcall, ?_⟩
  intro dt parse req hm ha hP
  unfold handler
  rw [if_neg (by rw [hm]; exact fun hc => hc rfl)]
  rw [ha]
  show afterAuth _ = _
  unfold afterAuth
  rw [← hP]
  rw [hcall]

/-- C6 witness: a primary failure body containing "model not found"
triggers the fallback request; when it fails too, the handler returns
502 carrying the fallback's body. -/
theorem c6_fallback_witness :
    callOpenAI (some "k") bothFailFetch PROMPT
      = ([primaryReq PROMPT, fallbackReq PROMPT],
         .err "fallback capacity exhausted")
    ∧ handler ⟨none, some "k", bothFailFetch, failParse⟩ ⟨"GET", none, none⟩
      = ⟨502, none, .error "OpenAI call failed" (some "fallback capacity exhausted")⟩ := by
  have h := c6_fallback "k" PROMPT bothFailFetch (by decide) rfl (by decide) rfl
  exact ⟨h.1, h.2 none failParse ⟨"GET", none, none⟩ rfl rfl rfl⟩

/-- C7: with a non-empty `DEEP_TOKEN` configured, a GET request whose
computed token differs is answered 401 `Unauthorized`, and one whose
token matches exactly proceeds past authorization into the upstream
pipeline. -/
theorem c7_auth_gate (t : String) (env : Env) (req : Request)
    (hd : env.deepToken = some t) (ht : t ≠ "") (hm : req.method = "GET") :
    (bearerOf req.authHeader req.queryToken ≠ t →
       handler env req = ⟨401, none, .error "Unauthorized" none⟩)
    ∧ (bearerOf req.authHeader req.queryToken = t →
       handler env req = afterAuth env) :=
  ⟨fun hne => handler_unauthorized env req t hd ht hm hne,
   fun heq => handler_authorized env req t hd hm heq⟩

/-- C7 witness: with `DEEP_TOKEN = "s3cret"`, a wrong bearer is rejected
with 401 and the exact bearer proceeds. -/
theorem c7_auth_gate_witness :
    handler ⟨some "s3cret", some "k", plainFailFetch, failParse⟩
        ⟨"GET", some "Bearer nope", none⟩
      = ⟨401, none, .error "Unauthorized" none⟩
    ∧ handler ⟨some "s3cret", some "k", plainFailFetch, failParse⟩
        ⟨"GET", some "Bearer s3cret", none⟩
      = afterAuth ⟨some "s3cret", some "k", plainFailFetch, failParse⟩ :=
  ⟨(c7_auth_gate "s3cret" ⟨some "s3cret", some "k", plainFailFetch, failParse⟩
      ⟨"GET", some "Bearer nope", none⟩ rfl (by decide) rfl).1 (by decide),
   (c7_auth_gate "s3cret" ⟨some "s3cret", some "k", plainFailFetch, failParse⟩
      ⟨"GET", some "Bearer s3cret", none⟩ rfl (by decide) rfl).2 (by decide)⟩

/-- C8 counterexample: with two output items and no `output_text`, the
code extracts the text of the FIRST output item while the claim names
the LAST output item. -/
theorem c8_counterexample :
    extractText twoOutputData = .str "A"
    ∧ specExtractClaim twoOutputData = .str "B"
    ∧ extractText twoOutputData ≠ specExtractClaim twoOutputData := by
  refine ⟨rfl, rfl, ?_⟩
  intro h
  exact absurd (JVal.str.inj h) (by decide)

/-- C8 as amended: the extracted value is the `output_text` chain when
truthy, otherwise the `text` of the FIRST content entry of the FIRST
output item when truthy, otherwise the literal string of an empty JSON
object (a present but falsy field — such as an empty string — also falls
through). -/
theorem c8_extraction (data : JVal) :
    (isTruthy (convField data) = true → extractText data = convField data)
    ∧ (isTruthy (convField data) = false → isTruthy (nestedField data) = true →
        extractText data = nestedField data)
    ∧ (isTruthy (convField data) = false → isTruthy (nestedField data) = false →
        extractText data = .str "\x7b\x7d") := by
  refine ⟨fun h1 => ?_, fun h1 h2 => ?_, fun h1 h2 => ?_⟩ <;>
    unfold extractText <;> rw [h1] <;> try rw [h2]
  all_goals rfl

/-- C8 witness: a truthy top-level `output_text` is extracted. -/
theorem c8_extraction_witness :
    isTruthy (convField (JVal.obj [("output_text", JVal.str "hi")])) = true
    ∧ extractText (JVal.obj [("output_text", JVal.str "hi")])
        = convField (JVal.obj [("output_text", JVal.str "hi")]) :=
  ⟨rfl, (c8_extraction (JVal.obj [("output_text", JVal.str "hi")])).1 rfl⟩

/-- C9: with no `OPENAI_API_KEY`, the upstream call fails without any
outbound request, its detail mentions "missing", and the handler
surfaces it as 502 "OpenAI call failed". -/
theorem c9_missing_key (fetch : OAIReq → FetchResp) (prompt : String)
    (env : Env) (req : Request)
    (hk : env.apiKey = none) (hm : req.method = "GET")
    (ha : authRejects env.deepToken (bearerOf req.authHeader req.queryToken) = false) :
    callOpenAI none fetch prompt = ([], .err missingKeyDetail)
    ∧ containsCI missingKeyDetail "missing" = true
    ∧ handler env req = ⟨502, none, .error "OpenAI call failed" (some missingKeyDetail)⟩ := by
  refine ⟨rfl, by decide, ?_⟩
  unfold handler
  rw [if_neg (by rw [hm]; exact fun hc => hc rfl)]
  rw [ha]
  show afterAuth env = _
  unfold afterAuth
  rw [hk]
  rfl

/-- C9 witness: concrete environment without the key. -/
theorem c9_missing_key_witness :
    handler ⟨none, none, plainFailFetch, failParse⟩ ⟨"GET", none, none⟩
      = ⟨502, none, .error "OpenAI call failed" (some missingKeyDetail)⟩ :=
  (c9_missing_key plainFailFetch "" ⟨none, none, plainFailFetch, failParse⟩
    ⟨"GET", none, none⟩ rfl rfl rfl).2.2

/-- C10 counterexample: for the header `"Bearer  s3cret"` (two spaces)
with query token `"wrong"` and `DEEP_TOKEN = "s3cret"`, the second
whitespace-separated word of the header equals the required token, yet
the code consults the query parameter and rejects the request with 401 —
the element at index 1 of the single-space split is the empty string,
which falls through. -/
theorem c10_counterexample :
    specSecondWord "Bearer  s3cret" = some "s3cret"
    ∧ envC10.deepToken = some "s3cret"
    ∧ bearerOf reqC10.authHeader reqC10.queryToken = "wrong"
    ∧ handler envC10 reqC10 = ⟨401, none, .error "Unauthorized" none⟩ := by
  refine ⟨by decide, rfl, by decide, ?_⟩
  exact handler_unauthorized envC10 reqC10 "s3cret" rfl (by decide) rfl (by decide)

/-- C10 as amended: the compared token is the element at index 1 of the
header split on single spaces, provided that element exists and is
non-empty; otherwise the query parameter (or the empty string) is used;
and a matching query token cannot override a non-empty mismatching
index-1 element — with a non-empty `DEEP_TOKEN` the request is then
rejected 401. -/
theorem c10_precedence (h : String) (q : Option String) :
    ((jsSplit h ' ').get? 1 = none ∨ (jsSplit h ' ').get? 1 = some "" →
       bearerOf (some h) q = q.getD "")
    ∧ (∀ w, (jsSplit h ' ').get? 1 = some w → w ≠ "" →
       bearerOf (some h) q = w)
    ∧ (∀ w t (env : Env) (req : Request),
        (jsSplit h ' ').get? 1 = some w → w ≠ "" → w ≠ t → t ≠ "" →
        env.deepToken = some t → req.method = "GET" →
        req.authHeader = some h → req.queryToken = q →
        handler env req = ⟨401, none, .error "Unauthorized" none⟩) := by
  have hmain : ∀ w, (jsSplit h ' ').get? 1 = some w → w ≠ "" →
      bearerOf (some h) q = w := by
    intro w hw hne
    have hh : headerWord (some h) = some w := hw
    simp only [bearerOf, hh]
    rw [if_pos hne]
  refine ⟨?_, hmain, ?_⟩
  · intro hc
    rcases hc with hc | hc
    · have hh : headerWord (some h) = none := hc
      simp only [bearerOf, hh]
      cases q with
      | none => rfl
      | some s => rfl
    · have hh : headerWord (some h) = some "" := hc
      simp only [bearerOf, hh]
      rw [if_neg (by intro hcc; exact hcc rfl)]
      cases q with
      | none => rfl
      | some s => rfl
  · intro w t env req hw hne hwt ht hd hm hah hqt
    apply handler_unauthorized env req t hd ht hm
    rw [hah, hqt]
    rw [hmain w hw hne]
    exact hwt

/-- C10 witness: a non-Bearer first word still yields the second word as
the compared token, and a matching query token does not override it. -/
theorem c10_precedence_witness :
    bearerOf (some "Token abc") (some "s3cret") = "abc"
    ∧ handler ⟨some "s3cret", some "k", plainFailFetch, failParse⟩
        ⟨"GET", some "Token abc", some "s3cret"⟩
      = ⟨401, none, .error "Unauthorized" none⟩ :=
  ⟨(c10_precedence "Token abc" (some "s3cret")).2.1 "abc" rfl (by decide),
   (c10_precedence "Token abc" (some "s3cret")).2.2 "abc" "s3cret"
     ⟨some "s3cret", some "k", plainFailFetch, failParse⟩
     ⟨"GET", some "Token abc", some "s3cret"⟩
     rfl (by decide) (by decide) (by decide) rfl rfl rfl rfl⟩

end Weekly
